import Mathlib

/-!
Shallow embedding of the matchmaking / message-relay core of the
GlobalCommunication server:

  * `server/storage.ts`  — `DatabaseStorage` (chat-room and message tables);
  * `server/services/chatService.ts` — `ChatService` handlers
    (`handleUserJoin`, `matchUsers`, `handleSendMessage`,
    `handleTranslateMessage`, `handleTyping`, `handleLeaveChat`,
    `sendToUser`, `sendError`);
  * `server/services/translationService.ts` — `translateText`.

The database is modelled as in-memory lists in insertion order; timestamps
(`new Date()` / `defaultNow()`) are explicit `Nat` clock parameters; fresh
row ids (`gen_random_uuid()`) are explicit `String` parameters; the
WebSocket layer is modelled by numeric socket ids plus the set of open
sockets, and every handler returns the wire messages it emitted instead of
writing to sockets.  Fallible externals (message insert, translation fetch)
take an explicit outcome parameter.
-/

/-- A row of the `chat_rooms` table (shared/schema.ts): `user2Id` is
nullable, `isActive` defaults to true, `endedAt` is null until the room is
ended. -/
structure ChatRoom where
  id : String
  user1Id : String
  user2Id : Option String
  isActive : Bool
  createdAt : Nat
  endedAt : Option Nat
deriving Repr, DecidableEq

/-- A row of the `messages` table (shared/schema.ts). -/
structure MessageRec where
  id : String
  chatRoomId : String
  senderId : String
  content : String
  originalLanguage : String
  createdAt : Nat
deriving Repr, DecidableEq

/-- A row of the `users` table as read by the core (shared/schema.ts):
`firstName` and `lastName` are nullable, `preferredLanguage` is not. -/
structure DirUser where
  id : String
  firstName : Option String
  lastName : Option String
  preferredLanguage : String
deriving Repr, DecidableEq

/-- The `ChatUser` record held in `ChatService.users`
(chatService.ts lines 6-11): user id, live socket, optional bound chat
room, and the preferred language captured at join time. -/
structure ChatUser where
  userId : String
  socket : Nat
  chatRoomId : Option String
  preferredLanguage : String
deriving Repr, DecidableEq

/-- The payloads the service writes to sockets (the `ChatMessage` shape of
chatService.ts, one constructor per `type` tag actually sent). -/
inductive WireMsg where
  | message (chatRoomId senderId content originalLanguage : String) (timestamp : Nat)
  | userJoined (chatRoomId otherId otherName otherLang : String)
  | userLeft (msg : String)
  | translation (translatedContent originalLanguage targetLanguage : String)
  | typing (senderId : String) (isTyping : Bool)
  | waiting (msg : String)
  | errorMsg (err : String)
deriving Repr, DecidableEq

/-- One wire message written to one socket. -/
structure Out where
  socket : Nat
  msg : WireMsg
deriving Repr, DecidableEq

/-- Combined server state: the `ChatService.users` map (as an association
list in insertion order, JS `Map` semantics), the set of open sockets, and
the two database tables in row-insertion order. -/
structure ServerState where
  registry : List (String × ChatUser)
  openSockets : List Nat
  chatRooms : List ChatRoom
  messages : List MessageRec
deriving Repr, DecidableEq

/-- `Map.get` on the registry. -/
def mapGet (m : List (String × ChatUser)) (k : String) : Option ChatUser :=
  match m with
  | [] => none
  | (k', v') :: rest => if k' = k then some v' else mapGet rest k

/-- `Map.set` on the registry: overwrite in place when the key exists
(JS `Map` keeps the original position), append otherwise. -/
def mapSet (m : List (String × ChatUser)) (k : String) (v : ChatUser) :
    List (String × ChatUser) :=
  match m with
  | [] => [(k, v)]
  | (k', v') :: rest => if k' = k then (k, v) :: rest else (k', v') :: mapSet rest k v

/-- `storage.getUser` (storage.ts lines 42-45): select the users row by id. -/
def getUser (dir : List DirUser) (id : String) : Option DirUser :=
  dir.find? (fun u => u.id == id)

/-- The WHERE clause of `findOrCreateChatRoom`'s select (storage.ts lines
76-83): `user2Id IS NULL AND isActive AND user1Id <> userId`, applied to the
rows in the order the database returns them.  The query has no `orderBy`,
so the database is free to return the table's rows in any order; that
order is the `returned` argument. -/
def selectWaitingRoom (returned : List ChatRoom) (userId : String) : Option ChatRoom :=
  returned.find? (fun r => r.user2Id.isNone && r.isActive && !(r.user1Id == userId))

/-- `storage.findOrCreateChatRoom` (storage.ts lines 71-98): if the
unordered limit-1 select finds a waiting room not owned by `userId`, set
its `user2Id` to `userId` and return the updated row; otherwise insert a
fresh waiting room `{user1Id: userId}`.  `rooms` is the table in insertion
order, `returned` the same rows in database return order, `newId` the
generated id and `now` the insert timestamp for the create branch. -/
def findOrCreateChatRoom (rooms returned : List ChatRoom) (userId newId : String)
    (now : Nat) : ChatRoom × List ChatRoom :=
  match selectWaitingRoom returned userId with
  | some existingRoom =>
      let updatedRoom : ChatRoom := { existingRoom with user2Id := some userId }
      (updatedRoom, rooms.map (fun r => if r.id = existingRoom.id then updatedRoom else r))
  | none =>
      let room : ChatRoom := ⟨newId, userId, none, true, now, none⟩
      (room, rooms ++ [room])

/-- `storage.getChatRoom` (storage.ts lines 100-103): select by id. -/
def getChatRoom (rooms : List ChatRoom) (id : String) : Option ChatRoom :=
  rooms.find? (fun r => r.id == id)

/-- `storage.endChatRoom` (storage.ts lines 105-110): update every row with
the given id to `isActive = false, endedAt = now`; the update is
unconditional (its WHERE clause checks only the id). -/
def endChatRoom (rooms : List ChatRoom) (id : String) (now : Nat) : List ChatRoom :=
  rooms.map (fun r => if r.id = id then { r with isActive := false, endedAt := some now } else r)

/-- `storage.createMessage` (storage.ts lines 113-119): insert a message
row and return it; `newId` and `now` stand for the generated id and the
`defaultNow()` creation timestamp. -/
def createMessage (msgs : List MessageRec) (chatRoomId senderId content originalLanguage : String)
    (newId : String) (now : Nat) : MessageRec × List MessageRec :=
  let m : MessageRec := ⟨newId, chatRoomId, senderId, content, originalLanguage, now⟩
  (m, msgs ++ [m])

/-- `ChatService.sendToUser` (chatService.ts lines 300-305): look the user
up in the registry and write the payload iff the stored socket is open. -/
def sendToUser (s : ServerState) (userId : String) (msg : WireMsg) : List Out :=
  match mapGet s.registry userId with
  | some u => if u.socket ∈ s.openSockets then [⟨u.socket, msg⟩] else []
  | none => []

/-- `ChatService.sendError` (chatService.ts lines 307-314): write an error
payload directly to a socket iff it is open. -/
def sendError (s : ServerState) (socket : Nat) (err : String) : List Out :=
  if socket ∈ s.openSockets then [⟨socket, WireMsg.errorMsg err⟩] else []

/-- JS `a || b` on an optional string: falsy (`undefined` or `""`) falls
back to `b`. -/
def jsOr (a : Option String) (b : String) : String :=
  match a with
  | none => b
  | some s => if s = "" then b else s

/-- The display name built in `matchUsers` (chatService.ts lines 142 and
152): backtick-template of `firstName` and `lastName` with optional
chaining, trimmed, falling back to "Anonymous". -/
def displayName (u : Option DirUser) : String :=
  match u with
  | none => "Anonymous"
  | some d =>
      let n := ((jsOr d.firstName "") ++ " " ++ (jsOr d.lastName "")).trim
      if n = "" then "Anonymous" else n

/-- `ChatService.matchUsers` (chatService.ts lines 115-168): look the user
up, run `findOrCreateChatRoom`, bind the room id into the user's registry
entry; if the room now has a second participant and the counterpart is
connected, bind the room into the counterpart's entry too and send both a
`user_joined` payload, else send the joiner a `waiting` payload (nothing
at all is sent when the counterpart is not in the registry).  `returned`
is the database's row return order for the unordered select; `newRoomId`
and `now` feed the create branch. -/
def matchUsers (s : ServerState) (userId : String) (dir : List DirUser)
    (returned : List ChatRoom) (newRoomId : String) (now : Nat) :
    ServerState × List Out :=
  match mapGet s.registry userId with
  | none => (s, [])
  | some user =>
    let res := findOrCreateChatRoom s.chatRooms returned userId newRoomId now
    let chatRoom := res.1
    let user1 : ChatUser := { user with chatRoomId := some chatRoom.id }
    let s1 : ServerState :=
      { s with registry := mapSet s.registry userId user1, chatRooms := res.2 }
    match chatRoom.user2Id with
    | none => (s1, sendToUser s1 userId (WireMsg.waiting "Waiting for another user to join..."))
    | some u2 =>
      let otherUserId := if chatRoom.user1Id = userId then u2 else chatRoom.user1Id
      match mapGet s1.registry otherUserId with
      | none => (s1, [])
      | some otherUser =>
        let otherUser1 : ChatUser := { otherUser with chatRoomId := some chatRoom.id }
        let s2 : ServerState := { s1 with registry := mapSet s1.registry otherUserId otherUser1 }
        let userDetails := getUser dir userId
        let otherUserDetails := getUser dir otherUserId
        let outs :=
          sendToUser s2 userId
            (WireMsg.userJoined chatRoom.id otherUserId (displayName otherUserDetails)
              otherUser.preferredLanguage) ++
          sendToUser s2 otherUserId
            (WireMsg.userJoined chatRoom.id userId (displayName userDetails)
              user.preferredLanguage)
        (s2, outs)

/-- `ChatService.handleUserJoin` (chatService.ts lines 88-113): reject a
missing/falsy `userId` with "User ID is required"; reject an id the user
directory does not know with "User not found"; otherwise store a fresh
`ChatUser` (preferred language from the message, falling back to the
directory row) and run `matchUsers`. -/
def handleUserJoin (s : ServerState) (socket : Nat) (userId : Option String)
    (preferredLanguage : Option String) (dir : List DirUser)
    (returned : List ChatRoom) (newRoomId : String) (now : Nat) :
    ServerState × List Out :=
  match userId with
  | none => (s, sendError s socket "User ID is required")
  | some uid =>
    if uid = "" then (s, sendError s socket "User ID is required")
    else
      match getUser dir uid with
      | none => (s, sendError s socket "User not found")
      | some user =>
        let chatUser : ChatUser := ⟨uid, socket, none, jsOr preferredLanguage user.preferredLanguage⟩
        let s1 : ServerState := { s with registry := mapSet s.registry uid chatUser }
        matchUsers s1 uid dir returned newRoomId now

/-- `ChatService.handleSendMessage` (chatService.ts lines 170-215): reject
with "Invalid chat room" unless the sender's registry entry is bound to
exactly the given room id; then persist via `createMessage` (`persistOk`
is the insert's outcome — a failure is caught and answered with "Failed to
send message"), re-read the room, and send the identical payload, stamped
with the persisted row's `createdAt`, to the sender and (when present) the
other participant. -/
def handleSendMessage (s : ServerState) (socket : Nat)
    (userId content chatRoomId : String) (persistOk : Bool)
    (newMsgId : String) (persistTime : Nat) : ServerState × List Out :=
  match mapGet s.registry userId with
  | none => (s, sendError s socket "Invalid chat room")
  | some user =>
    if user.chatRoomId ≠ some chatRoomId then
      (s, sendError s socket "Invalid chat room")
    else if ¬ persistOk then
      (s, sendError s socket "Failed to send message")
    else
      let saved := createMessage s.messages chatRoomId userId content
        user.preferredLanguage newMsgId persistTime
      let savedMessage := saved.1
      let s1 : ServerState := { s with messages := saved.2 }
      match getChatRoom s1.chatRooms chatRoomId with
      | none => (s1, sendError s1 socket "Chat room not found")
      | some chatRoom =>
        let otherUserId := if chatRoom.user1Id = userId then chatRoom.user2Id
          else some chatRoom.user1Id
        let messageToSend := WireMsg.message chatRoomId userId content
          user.preferredLanguage savedMessage.createdAt
        let outs := sendToUser s1 userId messageToSend ++
          (match otherUserId with
           | some oid => sendToUser s1 oid messageToSend
           | none => [])
        (s1, outs)

/-- The outcome of the external MyMemory `fetch` in
`translationService.translateText`: `none` models the fetch itself
throwing, otherwise the HTTP `ok` flag, the body's `responseStatus`, and
the body's translated text. -/
structure FetchResponse where
  ok : Bool
  responseStatus : Nat
  translatedText : String
deriving Repr, DecidableEq

/-- `translationService.translateText` result shape
(translationService.ts lines 1-5). -/
structure TranslationResult where
  translatedText : String
  sourceLanguage : String
  targetLanguage : String
deriving Repr, DecidableEq

/-- `translationService.translateText` (translationService.ts lines
10-38): throws when the fetch throws, when `response.ok` is false, or when
the body's `responseStatus` is not 200; every throw is caught and
rethrown as "Failed to translate text".  On success it returns the
translated text with the requested language pair. -/
def translateText (resp : Option FetchResponse) (sourceLang targetLang : String) :
    Except String TranslationResult :=
  match resp with
  | none => Except.error "Failed to translate text"
  | some r =>
    if ¬ r.ok then Except.error "Failed to translate text"
    else if r.responseStatus ≠ 200 then Except.error "Failed to translate text"
    else Except.ok ⟨r.translatedText, sourceLang, targetLang⟩

/-- `ChatService.handleTranslateMessage` (chatService.ts lines 217-237):
delegate to `translateText`; on success send the `translation` payload to
the requesting user only; on failure send "Failed to translate message" to
the requesting socket.  Neither branch touches any state. -/
def handleTranslateMessage (s : ServerState) (socket : Nat)
    (userId sourceLanguage targetLanguage : String)
    (resp : Option FetchResponse) : ServerState × List Out :=
  match translateText resp sourceLanguage targetLanguage with
  | Except.ok t =>
      (s, sendToUser s userId
        (WireMsg.translation t.translatedText sourceLanguage targetLanguage))
  | Except.error _ => (s, sendError s socket "Failed to translate message")

/-- `ChatService.handleTyping` (chatService.ts lines 239-257): if the
sender's registry entry is not bound to the given room, return silently
(no reply of any kind); else forward a `typing` payload to the other
participant when the room exists and has one. -/
def handleTyping (s : ServerState) (userId chatRoomId : String) (isTyping : Bool) :
    ServerState × List Out :=
  match mapGet s.registry userId with
  | none => (s, [])
  | some user =>
    if user.chatRoomId ≠ some chatRoomId then (s, [])
    else
      match getChatRoom s.chatRooms chatRoomId with
      | none => (s, [])
      | some chatRoom =>
        let otherUserId := if chatRoom.user1Id = userId then chatRoom.user2Id
          else some chatRoom.user1Id
        match otherUserId with
        | some oid => (s, sendToUser s oid (WireMsg.typing userId isTyping))
        | none => (s, [])

/-- `ChatService.handleLeaveChat` (chatService.ts lines 259-286): end the
room via `endChatRoom` (which unconditionally stamps `endedAt := now`),
re-read it, send a `user_left` payload to the other participant when the
room names one and they are connected, then clear the leaver's
`chatRoomId` binding in the registry. -/
def handleLeaveChat (s : ServerState) (userId chatRoomId : String) (now : Nat) :
    ServerState × List Out :=
  let rooms1 := endChatRoom s.chatRooms chatRoomId now
  let s1 : ServerState := { s with chatRooms := rooms1 }
  let outs :=
    match getChatRoom rooms1 chatRoomId with
    | some chatRoom =>
      let otherUserId := if chatRoom.user1Id = userId then chatRoom.user2Id
        else some chatRoom.user1Id
      match otherUserId with
      | some oid => sendToUser s1 oid (WireMsg.userLeft "The other user has left the chat")
      | none => []
    | none => []
  let s2 :=
    match mapGet s1.registry userId with
    | some u => { s1 with registry := mapSet s1.registry userId { u with chatRoomId := none } }
    | none => s1
  (s2, outs)

/-- One inbound client envelope together with the environment inputs its
handler consumes (database row return order, generated ids, clock reads,
external outcomes). -/
inductive Event where
  | join (socket : Nat) (userId preferredLanguage : Option String)
      (dir : List DirUser) (returned : List ChatRoom) (newRoomId : String) (now : Nat)
  | send (socket : Nat) (userId content chatRoomId : String)
      (persistOk : Bool) (newMsgId : String) (now : Nat)
  | translate (socket : Nat) (userId sourceLanguage targetLanguage : String)
      (resp : Option FetchResponse)
  | typing (userId chatRoomId : String) (isTyping : Bool)
  | leave (userId chatRoomId : String) (now : Nat)

/-- Dispatch of `ChatService.handleMessage` (chatService.ts lines 66-86)
to the per-type handlers. -/
def applyEvent (s : ServerState) (e : Event) : ServerState × List Out :=
  match e with
  | Event.join socket userId plang dir returned newRoomId now =>
      handleUserJoin s socket userId plang dir returned newRoomId now
  | Event.send socket userId content chatRoomId persistOk newMsgId now =>
      handleSendMessage s socket userId content chatRoomId persistOk newMsgId now
  | Event.translate socket userId sl tl resp =>
      handleTranslateMessage s socket userId sl tl resp
  | Event.typing userId chatRoomId isTyping =>
      handleTyping s userId chatRoomId isTyping
  | Event.leave userId chatRoomId now =>
      handleLeaveChat s userId chatRoomId now

/-- Environment sanity for an event: the row order a `join`'s unordered
select sees is some permutation of the chat-room table (SQL guarantees the
rows, not their order). -/
def eventValid (s : ServerState) : Event → Prop
  | Event.join _ _ _ _ returned _ _ => returned.Perm s.chatRooms
  | _ => True

/-- A freshly started service: empty registry and tables, some set of open
sockets. -/
def initialState (socks : List Nat) : ServerState := ⟨[], socks, [], []⟩

/-- States reachable from a fresh service by handler invocations. -/
inductive Reachable : ServerState → Prop where
  | init (socks : List Nat) : Reachable (initialState socks)
  | step {s : ServerState} (e : Event) : Reachable s → eventValid s e →
      Reachable (applyEvent s e).1

lemma mapGet_mapSet_same (m : List (String × ChatUser)) (k : String) (v : ChatUser) :
    mapGet (mapSet m k v) k = some v := by
  induction m with
  | nil => simp [mapGet, mapSet]
  | cons hd tl ih =>
      obtain ⟨k', v'⟩ := hd
      by_cases h : k' = k
      · simp [mapGet, mapSet, h]
      · simp [mapGet, mapSet, h, ih]

lemma mapGet_mapSet_ne (m : List (String × ChatUser)) (k k' : String) (v : ChatUser)
    (h : k' ≠ k) : mapGet (mapSet m k v) k' = mapGet m k' := by
  induction m with
  | nil => simp [mapGet, mapSet, Ne.symm h]
  | cons hd tl ih =>
      obtain ⟨k0, v0⟩ := hd
      by_cases h0 : k0 = k
      · subst h0
        simp [mapGet, mapSet, Ne.symm h]
      · simp only [mapSet, if_neg h0]
        by_cases h1 : k0 = k'
        · simp [mapGet, h1]
        · simp [mapGet, h1, ih]

lemma selectWaitingRoom_spec (rows : List ChatRoom) (userId : String) (r : ChatRoom)
    (h : selectWaitingRoom rows userId = some r) :
    r.user2Id = none ∧ r.isActive = true ∧ r.user1Id ≠ userId := by
  have hp := List.find?_some h
  simp only [Bool.and_eq_true, Option.isNone_iff_eq_none, Bool.not_eq_true',
    beq_eq_false_iff_ne, ne_eq] at hp
  exact ⟨hp.1.1, hp.1.2, hp.2⟩

/-- `noSelfPair`: a chat-room row never pairs a user with themselves. -/
def noSelfPair (r : ChatRoom) : Prop := r.user2Id ≠ some r.user1Id

/-- All rows of the session table satisfy `noSelfPair`. -/
def roomsOk (s : ServerState) : Prop := ∀ r ∈ s.chatRooms, noSelfPair r

lemma findOrCreateChatRoom_preserves (rooms returned : List ChatRoom)
    (userId newId : String) (now : Nat)
    (h : ∀ r ∈ rooms, noSelfPair r) :
    ∀ r ∈ (findOrCreateChatRoom rooms returned userId newId now).2, noSelfPair r := by
  intro r hr
  unfold findOrCreateChatRoom at hr
  cases hsel : selectWaitingRoom returned userId with
  | some existingRoom =>
      rw [hsel] at hr
      simp only [List.mem_map] at hr
      obtain ⟨a, ha, hra⟩ := hr
      by_cases hid : a.id = existingRoom.id
      · have hspec := selectWaitingRoom_spec returned userId existingRoom hsel
        have hne : userId ≠ existingRoom.user1Id := Ne.symm hspec.2.2
        simp only [hid, if_pos rfl] at hra
        subst hra
        simp [noSelfPair, hne]
      · simp only [if_neg hid] at hra
        subst hra
        exact h a ha
  | none =>
      rw [hsel] at hr
      simp only [List.mem_append, List.mem_singleton] at hr
      rcases hr with hr | hr
      · exact h r hr
      · subst hr
        simp [noSelfPair]

lemma endChatRoom_preserves (rooms : List ChatRoom) (id : String) (now : Nat)
    (h : ∀ r ∈ rooms, noSelfPair r) :
    ∀ r ∈ endChatRoom rooms id now, noSelfPair r := by
  intro r hr
  unfold endChatRoom at hr
  simp only [List.mem_map] at hr
  obtain ⟨a, ha, hra⟩ := hr
  by_cases hid : a.id = id
  · simp only [if_pos hid] at hra
    subst hra
    exact h a ha
  · simp only [if_neg hid] at hra
    subst hra
    exact h a ha

lemma matchUsers_chatRooms (s : ServerState) (userId : String) (dir : List DirUser)
    (returned : List ChatRoom) (newRoomId : String) (now : Nat) :
    (matchUsers s userId dir returned newRoomId now).1.chatRooms = s.chatRooms ∨
    (matchUsers s userId dir returned newRoomId now).1.chatRooms =
      (findOrCreateChatRoom s.chatRooms returned userId newRoomId now).2 := by
  simp only [matchUsers]
  split
  · left; rfl
  · split
    · right; rfl
    · split
      · right; rfl
      · right; rfl

lemma matchUsers_roomsOk (s : ServerState) (userId : String) (dir : List DirUser)
    (returned : List ChatRoom) (newRoomId : String) (now : Nat)
    (h : roomsOk s) : roomsOk (matchUsers s userId dir returned newRoomId now).1 := by
  unfold roomsOk
  rcases matchUsers_chatRooms s userId dir returned newRoomId now with hc | hc
  · rw [hc]; exact h
  · rw [hc]; exact findOrCreateChatRoom_preserves s.chatRooms returned userId newRoomId now h

lemma handleUserJoin_roomsOk (s : ServerState) (socket : Nat) (userId : Option String)
    (plang : Option String) (dir : List DirUser) (returned : List ChatRoom)
    (newRoomId : String) (now : Nat) (h : roomsOk s) :
    roomsOk (handleUserJoin s socket userId plang dir returned newRoomId now).1 := by
  unfold handleUserJoin
  split
  · exact h
  · split
    · exact h
    · split
      · exact h
      · exact matchUsers_roomsOk _ _ _ _ _ _ h

lemma handleSendMessage_chatRooms (s : ServerState) (socket : Nat)
    (userId content chatRoomId : String) (persistOk : Bool) (newMsgId : String)
    (persistTime : Nat) :
    (handleSendMessage s socket userId content chatRoomId persistOk newMsgId
      persistTime).1.chatRooms = s.chatRooms := by
  simp only [handleSendMessage]
  split
  · rfl
  · split
    · rfl
    · split
      · rfl
      · split
        · rfl
        · rfl

lemma handleTranslateMessage_state (s : ServerState) (socket : Nat)
    (userId sourceLanguage targetLanguage : String) (resp : Option FetchResponse) :
    (handleTranslateMessage s socket userId sourceLanguage targetLanguage resp).1 = s := by
  simp only [handleTranslateMessage]
  split <;> rfl

lemma handleTyping_state (s : ServerState) (userId chatRoomId : String) (isTyping : Bool) :
    (handleTyping s userId chatRoomId isTyping).1 = s := by
  simp only [handleTyping]
  split
  · rfl
  · split
    · rfl
    · split
      · rfl
      · split
        · rfl
        · rfl

lemma handleLeaveChat_chatRooms (s : ServerState) (userId chatRoomId : String) (now : Nat) :
    (handleLeaveChat s userId chatRoomId now).1.chatRooms =
      endChatRoom s.chatRooms chatRoomId now := by
  simp only [handleLeaveChat]
  split <;> rfl

lemma applyEvent_roomsOk (s : ServerState) (e : Event) (h : roomsOk s) :
    roomsOk (applyEvent s e).1 := by
  cases e with
  | join socket userId plang dir returned newRoomId now =>
      exact handleUserJoin_roomsOk s socket userId plang dir returned newRoomId now h
  | send socket userId content chatRoomId persistOk newMsgId now =>
      unfold roomsOk
      rw [show (applyEvent s (Event.send socket userId content chatRoomId persistOk newMsgId
        now)).1.chatRooms = s.chatRooms from
        handleSendMessage_chatRooms s socket userId content chatRoomId persistOk newMsgId now]
      exact h
  | translate socket userId sl tl resp =>
      unfold roomsOk
      rw [show (applyEvent s (Event.translate socket userId sl tl resp)).1 = s from
        handleTranslateMessage_state s socket userId sl tl resp]
      exact h
  | typing userId chatRoomId isTyping =>
      unfold roomsOk
      rw [show (applyEvent s (Event.typing userId chatRoomId isTyping)).1 = s from
        handleTyping_state s userId chatRoomId isTyping]
      exact h
  | leave userId chatRoomId now =>
      unfold roomsOk
      rw [show (applyEvent s (Event.leave userId chatRoomId now)).1.chatRooms =
        endChatRoom s.chatRooms chatRoomId now from
        handleLeaveChat_chatRooms s userId chatRoomId now]
      exact endChatRoom_preserves s.chatRooms chatRoomId now h

/-- C1: in every reachable state, `findOrCreateChatRoom` has never bound a
user as second participant of a session whose first participant is that
same user — no chat-room row ever has `user2Id` equal to `user1Id`. -/
theorem c1_no_self_match (s : ServerState) (h : Reachable s) :
    ∀ r ∈ s.chatRooms, r.user2Id ≠ some r.user1Id := by
  induction h with
  | init socks =>
      intro r hr
      simp [initialState] at hr
  | step e _ hv ih =>
      exact applyEvent_roomsOk _ e ih

/-- Witness for C1: the no-self-pair invariant, evaluated on the single
room of the state reached by one join from a fresh service. -/
theorem c1_no_self_match_witness :
    (⟨"r1", "A", none, true, 0, none⟩ : ChatRoom).user2Id ≠
      some (⟨"r1", "A", none, true, 0, none⟩ : ChatRoom).user1Id :=
  c1_no_self_match _
    (Reachable.step (Event.join 1 (some "A") none [⟨"A", none, none, "en-GB"⟩] [] "r1" 0)
      (Reachable.init [1]) (List.Perm.refl []))
    ⟨"r1", "A", none, true, 0, none⟩ (by decide)

/-- C2 (code-bug evidence): the waiting-room select of
`findOrCreateChatRoom` carries no `orderBy`, so the database may return
the table's rows in an order other than creation order.  With waiting
rooms created by "A" (time 0) and then "B" (time 1), and the rows returned
B-first — a permutation of the table, which the query permits — a joining
user "C" is bound into B's younger room, so creation-order FIFO is not
guaranteed by the code. -/
theorem c2_fifo_not_guaranteed :
    List.Perm
      [(⟨"rB", "B", none, true, 1, none⟩ : ChatRoom), ⟨"rA", "A", none, true, 0, none⟩]
      [(⟨"rA", "A", none, true, 0, none⟩ : ChatRoom), ⟨"rB", "B", none, true, 1, none⟩] ∧
    (⟨"rA", "A", none, true, 0, none⟩ : ChatRoom).createdAt <
      (⟨"rB", "B", none, true, 1, none⟩ : ChatRoom).createdAt ∧
    (findOrCreateChatRoom
        [⟨"rA", "A", none, true, 0, none⟩, ⟨"rB", "B", none, true, 1, none⟩]
        [⟨"rB", "B", none, true, 1, none⟩, ⟨"rA", "A", none, true, 0, none⟩]
        "C" "rNew" 2).1 = ⟨"rB", "B", some "C", true, 1, none⟩ :=
  ⟨List.Perm.swap _ _ _, by decide, by decide⟩

/-- C3 (code-bug evidence): `handleLeaveChat` is not idempotent.  On a
session between "A" and "B" already ended by a first leave at time 5, a
second leave at time 9 re-stamps the room's `endedAt` from 5 to 9 (the
`endChatRoom` update is unconditional) and sends a second `user_left`
notification to the still-connected other participant. -/
theorem c3_double_leave_not_idempotent :
    let s : ServerState :=
      ⟨[("A", ⟨"A", 1, some "r", "en-GB"⟩), ("B", ⟨"B", 2, some "r", "fr-FR"⟩)],
        [1, 2], [⟨"r", "A", some "B", true, 0, none⟩], []⟩
    let first := handleLeaveChat s "A" "r" 5
    let second := handleLeaveChat first.1 "A" "r" 9
    first.2 = [⟨2, WireMsg.userLeft "The other user has left the chat"⟩] ∧
    first.1.chatRooms.map ChatRoom.endedAt = [some 5] ∧
    second.2 = [⟨2, WireMsg.userLeft "The other user has left the chat"⟩] ∧
    second.1.chatRooms.map ChatRoom.endedAt = [some 9] := by
  decide

/-- C5 counterexample: user "A" is registered with a binding to the still
active session "rAB" with "B", yet a fresh join by "A" matches them into
"C"'s waiting session "rC": afterwards two active rooms both contain "A",
and "A"'s registry entry points at the second one.  The code never checks
whether a joining user already holds a session. -/
theorem c5_counterexample :
    let s : ServerState :=
      ⟨[("A", ⟨"A", 1, some "rAB", "en-GB"⟩), ("B", ⟨"B", 2, some "rAB", "fr-FR"⟩),
        ("C", ⟨"C", 3, some "rC", "de-DE"⟩)],
       [1, 2, 3],
       [⟨"rAB", "A", some "B", true, 0, none⟩, ⟨"rC", "C", none, true, 1, none⟩], []⟩
    let dir : List DirUser :=
      [⟨"A", some "Alice", none, "en-GB"⟩, ⟨"C", some "Cara", none, "de-DE"⟩]
    let res := handleUserJoin s 1 (some "A") (some "en-GB") dir s.chatRooms "rNew" 2
    res.1.chatRooms =
      [⟨"rAB", "A", some "B", true, 0, none⟩, ⟨"rC", "C", some "A", true, 1, none⟩] ∧
    mapGet res.1.registry "A" = some ⟨"A", 1, some "rC", "en-GB"⟩ := by
  decide

/-- C6 counterexample: a typing signal from "A" for session "r2", to which
"A" does not belong ("A" is bound to "r1"), produces no output at all —
in particular no error response reaches "A"'s socket — though the state is
indeed left unchanged. -/
theorem c6_counterexample :
    let s : ServerState :=
      ⟨[("A", ⟨"A", 1, some "r1", "en-GB"⟩)], [1],
       [⟨"r1", "A", some "B", true, 0, none⟩, ⟨"r2", "B", some "C", true, 1, none⟩], []⟩
    handleTyping s "A" "r2" true = (s, []) := by
  decide

/-- C4: when the sender's registry entry is bound to the given session,
both participants are connected and the insert succeeds,
`handleSendMessage` appends exactly one record to the persisted log and
then writes the identical payload — same content, same original language,
same sender id — to the sender's and the other participant's sockets, with
the timestamp equal to the persisted record's `createdAt` (the
persistence-time clock, the only clock the handler reads). -/
theorem c4_relay_persists_then_delivers (s : ServerState) (socket : Nat)
    (userId content chatRoomId newMsgId : String) (persistTime : Nat)
    (user other : ChatUser) (room : ChatRoom) (oid : String)
    (hu : mapGet s.registry userId = some user)
    (hb : user.chatRoomId = some chatRoomId)
    (hroom : getChatRoom s.chatRooms chatRoomId = some room)
    (hoid : (if room.user1Id = userId then room.user2Id else some room.user1Id) = some oid)
    (ho : mapGet s.registry oid = some other)
    (hsock : user.socket ∈ s.openSockets)
    (hosock : other.socket ∈ s.openSockets) :
    (handleSendMessage s socket userId content chatRoomId true newMsgId persistTime).1 =
      { s with messages := s.messages ++
          [⟨newMsgId, chatRoomId, userId, content, user.preferredLanguage, persistTime⟩] } ∧
    (handleSendMessage s socket userId content chatRoomId true newMsgId persistTime).2 =
      [⟨user.socket, WireMsg.message chatRoomId userId content user.preferredLanguage persistTime⟩,
       ⟨other.socket, WireMsg.message chatRoomId userId content user.preferredLanguage persistTime⟩] := by
  simp [handleSendMessage, createMessage, sendToUser, hu, hb, hroom, hoid, ho, hsock, hosock]

/-- Witness for C4: a concrete relay between connected users "A" and "B"
in room "r", persisted at time 7. -/
theorem c4_relay_persists_then_delivers_witness :
    (handleSendMessage
        ⟨[("A", ⟨"A", 1, some "r", "en-GB"⟩), ("B", ⟨"B", 2, some "r", "fr-FR"⟩)],
          [1, 2], [⟨"r", "A", some "B", true, 0, none⟩], []⟩
        1 "A" "hello" "r" true "m1" 7).1 =
      ⟨[("A", ⟨"A", 1, some "r", "en-GB"⟩), ("B", ⟨"B", 2, some "r", "fr-FR"⟩)],
        [1, 2], [⟨"r", "A", some "B", true, 0, none⟩],
        [⟨"m1", "r", "A", "hello", "en-GB", 7⟩]⟩ ∧
    (handleSendMessage
        ⟨[("A", ⟨"A", 1, some "r", "en-GB"⟩), ("B", ⟨"B", 2, some "r", "fr-FR"⟩)],
          [1, 2], [⟨"r", "A", some "B", true, 0, none⟩], []⟩
        1 "A" "hello" "r" true "m1" 7).2 =
      [⟨1, WireMsg.message "r" "A" "hello" "en-GB" 7⟩,
       ⟨2, WireMsg.message "r" "A" "hello" "en-GB" 7⟩] :=
  c4_relay_persists_then_delivers _ 1 "A" "hello" "r" "m1" 7
    ⟨"A", 1, some "r", "en-GB"⟩ ⟨"B", 2, some "r", "fr-FR"⟩
    ⟨"r", "A", some "B", true, 0, none⟩ "B"
    (by decide) (by decide) (by decide) (by decide) (by decide) (by decide) (by decide)

/-- C7: when the message insert fails, `handleSendMessage` answers the
sender's socket with the "Failed to send message" error and nothing else:
no payload is produced for either participant and the state — registry,
session table and message log — is returned unchanged. -/
theorem c7_persist_failure_no_delivery (s : ServerState) (socket : Nat)
    (userId content chatRoomId newMsgId : String) (persistTime : Nat) (user : ChatUser)
    (hu : mapGet s.registry userId = some user)
    (hb : user.chatRoomId = some chatRoomId) :
    handleSendMessage s socket userId content chatRoomId false newMsgId persistTime =
      (s, sendError s socket "Failed to send message") := by
  simp [handleSendMessage, hu, hb]

/-- Witness for C7: a failed insert for a valid sender leaves the concrete
state untouched and answers only the sender. -/
theorem c7_persist_failure_no_delivery_witness :
    handleSendMessage
        ⟨[("A", ⟨"A", 1, some "r", "en-GB"⟩), ("B", ⟨"B", 2, some "r", "fr-FR"⟩)],
          [1, 2], [⟨"r", "A", some "B", true, 0, none⟩], []⟩
        1 "A" "hello" "r" false "m1" 7 =
      (⟨[("A", ⟨"A", 1, some "r", "en-GB"⟩), ("B", ⟨"B", 2, some "r", "fr-FR"⟩)],
          [1, 2], [⟨"r", "A", some "B", true, 0, none⟩], []⟩,
        [⟨1, WireMsg.errorMsg "Failed to send message"⟩]) :=
  c7_persist_failure_no_delivery _ 1 "A" "hello" "r" "m1" 7
    ⟨"A", 1, some "r", "en-GB"⟩ (by decide) (by decide)

/-- C8: `translateText` fails (with the caught-and-rethrown translation
error) exactly when the external fetch throws, the HTTP response is not
ok, or the body's status is not 200; `handleTranslateMessage` never
changes any state, reports a failure only as the translation-specific
error on the requester's socket, and on success sends the translation
payload through `sendToUser` to the requesting user alone. -/
theorem c8_translation_broker (s : ServerState) (socket : Nat)
    (userId sourceLanguage targetLanguage : String) (resp : Option FetchResponse) :
    (handleTranslateMessage s socket userId sourceLanguage targetLanguage resp).1 = s ∧
    ((∃ t, translateText resp sourceLanguage targetLanguage = Except.ok t) ↔
      ∃ r, resp = some r ∧ r.ok = true ∧ r.responseStatus = 200) ∧
    (∀ r, resp = some r → r.ok = true → r.responseStatus = 200 →
      handleTranslateMessage s socket userId sourceLanguage targetLanguage resp =
        (s, sendToUser s userId
          (WireMsg.translation r.translatedText sourceLanguage targetLanguage))) ∧
    (∀ e, translateText resp sourceLanguage targetLanguage = Except.error e →
      handleTranslateMessage s socket userId sourceLanguage targetLanguage resp =
        (s, sendError s socket "Failed to translate message")) := by
  refine ⟨?_, ?_, ?_, ?_⟩
  · cases resp with
    | none => simp [handleTranslateMessage, translateText]
    | some r =>
        by_cases hok : r.ok = true
        · by_cases hst : r.responseStatus = 200
          · simp [handleTranslateMessage, translateText, hok, hst]
          · simp [handleTranslateMessage, translateText, hok, hst]
        · simp [handleTranslateMessage, translateText, hok]
  · cases resp with
    | none => simp [translateText]
    | some r =>
        by_cases hok : r.ok = true
        · by_cases hst : r.responseStatus = 200
          · simp [translateText, hok, hst]
          · simp [translateText, hok, hst]
        · simp [translateText, hok]
  · intro r hr hok hst
    subst hr
    simp [handleTranslateMessage, translateText, hok, hst]
  · intro e he
    simp [handleTranslateMessage, he]

/-- Witness for C8: the broker contract evaluated at a successful concrete
response for requester "B". -/
theorem c8_translation_broker_witness :
    (handleTranslateMessage
        ⟨[("B", ⟨"B", 2, some "r", "fr-FR"⟩)], [2], [], []⟩
        2 "B" "en-GB" "fr-FR" (some ⟨true, 200, "bonjour"⟩)).1 =
      ⟨[("B", ⟨"B", 2, some "r", "fr-FR"⟩)], [2], [], []⟩ ∧
    ((∃ t, translateText (some ⟨true, 200, "bonjour"⟩) "en-GB" "fr-FR" = Except.ok t) ↔
      ∃ r, (some (⟨true, 200, "bonjour"⟩ : FetchResponse)) = some r ∧
        r.ok = true ∧ r.responseStatus = 200) ∧
    (∀ r, (some (⟨true, 200, "bonjour"⟩ : FetchResponse)) = some r → r.ok = true →
      r.responseStatus = 200 →
      handleTranslateMessage ⟨[("B", ⟨"B", 2, some "r", "fr-FR"⟩)], [2], [], []⟩
          2 "B" "en-GB" "fr-FR" (some ⟨true, 200, "bonjour"⟩) =
        (⟨[("B", ⟨"B", 2, some "r", "fr-FR"⟩)], [2], [], []⟩,
          sendToUser ⟨[("B", ⟨"B", 2, some "r", "fr-FR"⟩)], [2], [], []⟩ "B"
            (WireMsg.translation r.translatedText "en-GB" "fr-FR"))) ∧
    (∀ e, translateText (some ⟨true, 200, "bonjour"⟩) "en-GB" "fr-FR" = Except.error e →
      handleTranslateMessage ⟨[("B", ⟨"B", 2, some "r", "fr-FR"⟩)], [2], [], []⟩
          2 "B" "en-GB" "fr-FR" (some ⟨true, 200, "bonjour"⟩) =
        (⟨[("B", ⟨"B", 2, some "r", "fr-FR"⟩)], [2], [], []⟩,
          sendError ⟨[("B", ⟨"B", 2, some "r", "fr-FR"⟩)], [2], [], []⟩ 2
            "Failed to translate message")) :=
  c8_translation_broker ⟨[("B", ⟨"B", 2, some "r", "fr-FR"⟩)], [2], [], []⟩
    2 "B" "en-GB" "fr-FR" (some ⟨true, 200, "bonjour"⟩)

/-- C6 (amended): a message relay on a session the sender is not bound to
is answered with the "Invalid chat room" error on the sender's socket and
mutates no state; a typing signal with the same mismatch also mutates no
state but is dropped silently — the handler returns without writing
anything, so no error response is produced for it. -/
theorem c6_amended_mismatch_behaviour (s : ServerState) (socket : Nat)
    (userId content chatRoomId newMsgId : String) (persistOk : Bool)
    (persistTime : Nat) (isTyping : Bool)
    (hmis : ∀ u, mapGet s.registry userId = some u → u.chatRoomId ≠ some chatRoomId) :
    handleSendMessage s socket userId content chatRoomId persistOk newMsgId persistTime =
      (s, sendError s socket "Invalid chat room") ∧
    handleTyping s userId chatRoomId isTyping = (s, []) := by
  cases hu : mapGet s.registry userId with
  | none => simp [handleSendMessage, handleTyping, hu]
  | some u =>
      have hne := hmis u hu
      simp [handleSendMessage, handleTyping, hu, hne]

/-- Witness for C6 (amended): sender "A" is bound to "r1"; both a send and
a typing signal aimed at "r2" leave the concrete state unchanged, the send
answered with an error and the typing signal answered with nothing. -/
theorem c6_amended_mismatch_behaviour_witness :
    handleSendMessage
        ⟨[("A", ⟨"A", 1, some "r1", "en-GB"⟩)], [1],
          [⟨"r1", "A", some "B", true, 0, none⟩], []⟩
        1 "A" "hi" "r2" true "m1" 7 =
      (⟨[("A", ⟨"A", 1, some "r1", "en-GB"⟩)], [1],
          [⟨"r1", "A", some "B", true, 0, none⟩], []⟩,
        [⟨1, WireMsg.errorMsg "Invalid chat room"⟩]) ∧
    handleTyping
        ⟨[("A", ⟨"A", 1, some "r1", "en-GB"⟩)], [1],
          [⟨"r1", "A", some "B", true, 0, none⟩], []⟩
        "A" "r2" true =
      (⟨[("A", ⟨"A", 1, some "r1", "en-GB"⟩)], [1],
          [⟨"r1", "A", some "B", true, 0, none⟩], []⟩, []) :=
  c6_amended_mismatch_behaviour _ 1 "A" "hi" "r2" "m1" true 7 true (by decide)

/-- C5 (amended): the only matchmaking exclusion the code implements — the
waiting-room select never returns a waiting session whose first
participant is the requesting user; it places no condition on any other
session the requester may already hold. -/
theorem c5_amended_only_own_room_excluded (rows : List ChatRoom) (userId : String)
    (r : ChatRoom) (h : selectWaitingRoom rows userId = some r) :
    r.user1Id ≠ userId ∧ r.user2Id = none ∧ r.isActive = true := by
  have hp := selectWaitingRoom_spec rows userId r h
  exact ⟨hp.2.2, hp.1, hp.2.1⟩

/-- Witness for C5 (amended): the select over a one-room pool, invoked for
a different user, returns that room with the guard facts. -/
theorem c5_amended_only_own_room_excluded_witness :
    (⟨"rC", "C", none, true, 1, none⟩ : ChatRoom).user1Id ≠ "A" ∧
    (⟨"rC", "C", none, true, 1, none⟩ : ChatRoom).user2Id = none ∧
    (⟨"rC", "C", none, true, 1, none⟩ : ChatRoom).isActive = true :=
  c5_amended_only_own_room_excluded [⟨"rC", "C", none, true, 1, none⟩] "A"
    ⟨"rC", "C", none, true, 1, none⟩ (by decide)

/-- C10: a join with a missing or falsy user id, or with an id unknown to
the user directory, changes nothing — the returned state is the input
state, so no registry entry and no waiting session is created — and the
joining socket is answered with an error envelope. -/
theorem c10_unknown_user_join_rejected (s : ServerState) (socket : Nat)
    (userId : Option String) (plang : Option String) (dir : List DirUser)
    (returned : List ChatRoom) (newRoomId : String) (now : Nat)
    (h : userId = none ∨ userId = some "" ∨
      ∃ u, userId = some u ∧ getUser dir u = none) :
    (handleUserJoin s socket userId plang dir returned newRoomId now).1 = s ∧
    ∃ e, (handleUserJoin s socket userId plang dir returned newRoomId now).2 =
      sendError s socket e := by
  rcases h with h | h | ⟨u, hu, hg⟩
  · subst h
    exact ⟨rfl, ⟨"User ID is required", rfl⟩⟩
  · subst h
    exact ⟨rfl, ⟨"User ID is required", rfl⟩⟩
  · subst hu
    by_cases h0 : u = ""
    · subst h0
      exact ⟨rfl, ⟨"User ID is required", rfl⟩⟩
    · have hred : handleUserJoin s socket (some u) plang dir returned newRoomId now =
          (s, sendError s socket "User not found") := by
        simp [handleUserJoin, h0, hg]
      rw [hred]
      exact ⟨rfl, ⟨"User not found", rfl⟩⟩

/-- Witness for C10: joining as the unknown user "ghost" on a fresh
service leaves the state unchanged and answers with an error. -/
theorem c10_unknown_user_join_rejected_witness :
    (handleUserJoin (initialState [1]) 1 (some "ghost") none
        [⟨"A", none, none, "en-GB"⟩] [] "r1" 0).1 = initialState [1] ∧
    ∃ e, (handleUserJoin (initialState [1]) 1 (some "ghost") none
        [⟨"A", none, none, "en-GB"⟩] [] "r1" 0).2 = sendError (initialState [1]) 1 e :=
  c10_unknown_user_join_rejected (initialState [1]) 1 (some "ghost") none
    [⟨"A", none, none, "en-GB"⟩] [] "r1" 0
    (Or.inr (Or.inr ⟨"ghost", rfl, by decide⟩))

lemma matchUsers_keeps_socket (s : ServerState) (userId : String) (dir : List DirUser)
    (returned : List ChatRoom) (newRoomId : String) (now : Nat) (u : ChatUser)
    (hu : mapGet s.registry userId = some u) :
    ∃ v, mapGet (matchUsers s userId dir returned newRoomId now).1.registry userId = some v ∧
      v.socket = u.socket ∧ v.preferredLanguage = u.preferredLanguage := by
  cases hsel : selectWaitingRoom returned userId with
  | none =>
      refine ⟨{ u with chatRoomId := some newRoomId }, ?_, rfl, rfl⟩
      simp [matchUsers, hu, findOrCreateChatRoom, hsel, mapGet_mapSet_same]
  | some ex =>
      have hne : ex.user1Id ≠ userId := (selectWaitingRoom_spec returned userId ex hsel).2.2
      cases hov : mapGet (mapSet s.registry userId { u with chatRoomId := some ex.id })
          ex.user1Id with
      | none =>
          refine ⟨{ u with chatRoomId := some ex.id }, ?_, rfl, rfl⟩
          simp [matchUsers, hu, findOrCreateChatRoom, hsel, hne, hov, mapGet_mapSet_same]
      | some ov =>
          refine ⟨{ u with chatRoomId := some ex.id }, ?_, rfl, rfl⟩
          have hreg : (matchUsers s userId dir returned newRoomId now).1.registry =
              mapSet (mapSet s.registry userId { u with chatRoomId := some ex.id })
                ex.user1Id { ov with chatRoomId := some ex.id } := by
            simp [matchUsers, hu, findOrCreateChatRoom, hsel, hne, hov]
          rw [hreg, mapGet_mapSet_ne _ _ _ _ (Ne.symm hne), mapGet_mapSet_same]

/-- C9: registering is last-write-wins — a join by a user who already has
a live registry entry stores a fresh `ChatUser` carrying the new socket
(and the join's preferred language), and a subsequent registry lookup
returns that new handle, whatever the matchmaking outcome was. -/
theorem c9_register_last_write_wins (s : ServerState) (socket : Nat) (uid : String)
    (plang : Option String) (dir : List DirUser) (returned : List ChatRoom)
    (newRoomId : String) (now : Nat) (du : DirUser) (old : ChatUser)
    (hprev : mapGet s.registry uid = some old) (hne : uid ≠ "")
    (hdir : getUser dir uid = some du) :
    ∃ v, mapGet (handleUserJoin s socket (some uid) plang dir returned newRoomId
        now).1.registry uid = some v ∧
      v.socket = socket ∧ v.preferredLanguage = jsOr plang du.preferredLanguage := by
  have hred : handleUserJoin s socket (some uid) plang dir returned newRoomId now =
      matchUsers
        { s with
          registry :=
            mapSet s.registry uid (ChatUser.mk uid socket none (jsOr plang du.preferredLanguage)) }
        uid dir returned newRoomId now := by
    simp [handleUserJoin, hne, hdir]
  rw [hred]
  have h1 : mapGet
      ({ s with
         registry :=
           mapSet s.registry uid (ChatUser.mk uid socket none (jsOr plang du.preferredLanguage)) } :
        ServerState).registry uid =
      some (ChatUser.mk uid socket none (jsOr plang du.preferredLanguage)) :=
    mapGet_mapSet_same _ _ _
  obtain ⟨v, hv, hsock, hlang⟩ :=
    matchUsers_keeps_socket _ uid dir returned newRoomId now _ h1
  exact ⟨v, hv, hsock, hlang⟩

/-- Witness for C9: "A" is registered with socket 1 and rejoins on socket
5; the looked-up handle now carries socket 5. -/
theorem c9_register_last_write_wins_witness :
    ∃ v, mapGet (handleUserJoin
        ⟨[("A", ⟨"A", 1, some "rOld", "en-GB"⟩)], [1, 5], [], []⟩
        5 (some "A") (some "en-GB") [⟨"A", none, none, "en-GB"⟩] [] "r1" 3).1.registry "A"
      = some v ∧ v.socket = 5 ∧ v.preferredLanguage = jsOr (some "en-GB") "en-GB" :=
  c9_register_last_write_wins
    ⟨[("A", ⟨"A", 1, some "rOld", "en-GB"⟩)], [1, 5], [], []⟩
    5 "A" (some "en-GB") [⟨"A", none, none, "en-GB"⟩] [] "r1" 3
    ⟨"A", none, none, "en-GB"⟩ ⟨"A", 1, some "rOld", "en-GB"⟩
    (by decide) (by decide) (by decide)
